import Mathlib

/-!
Shallow embedding of the hyperglass ALS subsystems:
bandwidth monitor (src/hyperglass/api/bandwidth.py),
iperf3 session manager (src/hyperglass/api/network_tools.py),
the query cache path (src/hyperglass/api/routes.py),
the ALS config validator (src/hyperglass/util/als_config_validator.py),
and the speed-test file endpoint (src/hyperglass/api/speedtest.py).
Strings are modelled as lists of characters; Python floats over the
sampled quantities are modelled exactly as rationals; Python ints as Int/Nat.
-/

namespace Hyperglass

/-! ### Generic association-list operations

Model of Python dict access used throughout: lookup, upsert, and
defaulted lookup (defaultdict).  Keys are character lists. -/

/-- Lookup in an association list keyed by character lists (Python `d[k]` / `k in d`). -/
def assocLookup {α : Type} : List (List Char × α) → List Char → Option α
  | [], _ => none
  | (k2, v) :: rest, k => if k2 = k then some v else assocLookup rest k

/-- Upsert in an association list (Python `d[k] = v`). -/
def assocSet {α : Type} : List (List Char × α) → List Char → α → List (List Char × α)
  | [], k, v => [(k, v)]
  | (k2, w) :: rest, k, v =>
      if k2 = k then (k2, v) :: rest else (k2, w) :: assocSet rest k v

theorem assocLookup_assocSet_self {α : Type} (l : List (List Char × α)) (k : List Char) (v : α) :
    assocLookup (assocSet l k v) k = some v := by
  induction l with
  | nil => simp [assocSet, assocLookup]
  | cons hd tl ih =>
      obtain ⟨k2, w⟩ := hd
      by_cases h : k2 = k
      · simp [assocSet, assocLookup, h]
      · simp [assocSet, assocLookup, h, ih]

theorem assocLookup_assocSet_ne {α : Type} (l : List (List Char × α)) (k k2 : List Char) (v : α)
    (h : k2 ≠ k) : assocLookup (assocSet l k2 v) k = assocLookup l k := by
  induction l with
  | nil => simp [assocSet, assocLookup, h]
  | cons hd tl ih =>
      obtain ⟨k3, w⟩ := hd
      by_cases h3 : k3 = k2
      · subst h3
        simp [assocSet, assocLookup, h]
      · simp [assocSet, assocLookup, h3, ih]

/-- Model of Python `str.startswith` on character lists. -/
def startsWithL : List Char → List Char → Bool
  | _, [] => true
  | [], _ :: _ => false
  | c :: cs, d :: ds => c == d && startsWithL cs ds

/-! ### Bandwidth monitor (src/hyperglass/api/bandwidth.py) -/

/-- One row of psutil.net_io_counters(pernic=True) for a single interface. -/
structure NetIOCounters where
  bytes_sent : Int
  bytes_recv : Int
  packets_sent : Int
  packets_recv : Int
deriving DecidableEq

/-- The current_stats dict built by BandwidthMonitor._collect_stats:
counters plus the four derived rate fields. -/
structure SampleRec where
  timestamp : Rat
  bytes_sent : Int
  bytes_recv : Int
  packets_sent : Int
  packets_recv : Int
  send_rate : Rat
  recv_rate : Rat
  send_packets_rate : Rat
  recv_packets_rate : Rat
deriving DecidableEq

/-- The exclusion test in _collect_stats:
interface.startswith(('lo', 'docker', 'br-', 'veth')). -/
def excludedInterface (name : List Char) : Bool :=
  startsWithL name "lo".data || startsWithL name "docker".data ||
  startsWithL name "br-".data || startsWithL name "veth".data

/-- Rate computation for one interface in _collect_stats (bandwidth.py lines 73-106):
if a previous sample exists and time_diff > 0, rate = delta / time_diff,
otherwise all four rates are 0. -/
def collectInterface (last : Option SampleRec) (current_time : Rat)
    (stats : NetIOCounters) : SampleRec :=
  match last with
  | some l =>
      let time_diff := current_time - l.timestamp
      if time_diff > 0 then
        { timestamp := current_time
          bytes_sent := stats.bytes_sent
          bytes_recv := stats.bytes_recv
          packets_sent := stats.packets_sent
          packets_recv := stats.packets_recv
          send_rate := ((stats.bytes_sent - l.bytes_sent : Int) : Rat) / time_diff
          recv_rate := ((stats.bytes_recv - l.bytes_recv : Int) : Rat) / time_diff
          send_packets_rate := ((stats.packets_sent - l.packets_sent : Int) : Rat) / time_diff
          recv_packets_rate := ((stats.packets_recv - l.packets_recv : Int) : Rat) / time_diff }
      else
        { timestamp := current_time
          bytes_sent := stats.bytes_sent
          bytes_recv := stats.bytes_recv
          packets_sent := stats.packets_sent
          packets_recv := stats.packets_recv
          send_rate := 0, recv_rate := 0
          send_packets_rate := 0, recv_packets_rate := 0 }
  | none =>
      { timestamp := current_time
        bytes_sent := stats.bytes_sent
        bytes_recv := stats.bytes_recv
        packets_sent := stats.packets_sent
        packets_recv := stats.packets_recv
        send_rate := 0, recv_rate := 0
        send_packets_rate := 0, recv_packets_rate := 0 }

/-- Bounded append modelling collections.deque(maxlen=cap).append:
keep only the newest cap elements. -/
def appendCap {α : Type} (cap : Nat) (xs : List α) (x : α) : List α :=
  let ys := xs ++ [x]
  ys.drop (ys.length - cap)

/-- State of BandwidthMonitor: per-interface bounded histories, last sample per
interface, the monitoring flag, and whether a monitor task handle is held
(monitor_task is not None). -/
structure MonitorState where
  interface_stats : List (List Char × List SampleRec)
  last_stats : List (List Char × SampleRec)
  monitoring : Bool
  monitor_task : Bool
deriving DecidableEq

/-- BandwidthMonitor.__init__. -/
def initMonitor : MonitorState :=
  { interface_stats := [], last_stats := [], monitoring := false, monitor_task := false }

/-- Body of the per-interface loop in _collect_stats: skip excluded interfaces,
compute the sample, append to the defaultdict deque (maxlen=60), update last_stats. -/
def collectStep (now : Rat) (st : MonitorState) (entry : List Char × NetIOCounters) :
    MonitorState :=
  if excludedInterface entry.1 then st
  else
    let current := collectInterface (assocLookup st.last_stats entry.1) now entry.2
    let hist := (assocLookup st.interface_stats entry.1).getD []
    { st with
      interface_stats := assocSet st.interface_stats entry.1 (appendCap 60 hist current)
      last_stats := assocSet st.last_stats entry.1 current }

/-- BandwidthMonitor._collect_stats over one snapshot of all interface counters. -/
def collect_stats (st : MonitorState) (now : Rat)
    (net_io : List (List Char × NetIOCounters)) : MonitorState :=
  net_io.foldl (collectStep now) st

/-- BandwidthMonitor.start_monitoring: if already monitoring, return (no state
change, no task spawned); otherwise set the flag and spawn the loop task.
The Bool result records whether a new monitor loop task was created. -/
def start_monitoring (st : MonitorState) : MonitorState × Bool :=
  if st.monitoring then (st, false)
  else ({ st with monitoring := true, monitor_task := true }, true)

/-- The newest retained sample for an interface (stats_deque[-1] in
get_current_stats). -/
def latestSample (st : MonitorState) (iface : List Char) : Option SampleRec :=
  (assocLookup st.interface_stats iface).bind List.getLast?

/-- Interface name used by the spec scenario. -/
def eth0 : List Char := "eth0".data

/-- First tick counters of the spec scenario. -/
def scenarioCounters1 : NetIOCounters :=
  { bytes_sent := 1000, bytes_recv := 2000, packets_sent := 10, packets_recv := 20 }

/-- Second tick counters of the spec scenario. -/
def scenarioCounters2 : NetIOCounters :=
  { bytes_sent := 1500, bytes_recv := 2600, packets_sent := 15, packets_recv := 26 }

/-- State after the two scenario ticks, one second apart. -/
def scenarioState : MonitorState :=
  collect_stats (collect_stats initMonitor 0 [(eth0, scenarioCounters1)]) 1
    [(eth0, scenarioCounters2)]

/-! ### iperf3 session manager (src/hyperglass/api/network_tools.py) -/

/-- The only behaviour of a spawned process that stop_server observes:
whether process.wait() returns within the 5 second timeout. -/
structure ProcHandle where
  exits_within_timeout : Bool
deriving DecidableEq

/-- IPerf3Server state: the port-to-process dict. -/
structure IPerf3State where
  processes : List (Nat × ProcHandle)
deriving DecidableEq

/-- Lookup in the processes dict (port in self.processes). -/
def portLookup : List (Nat × ProcHandle) → Nat → Option ProcHandle
  | [], _ => none
  | (p, h) :: rest, port => if p = port then some h else portLookup rest port

/-- Upsert in the processes dict (self.processes[port] = process). -/
def portSet : List (Nat × ProcHandle) → Nat → ProcHandle → List (Nat × ProcHandle)
  | [], port, h => [(port, h)]
  | (p, g) :: rest, port, h =>
      if p = port then (p, h) :: rest else (p, g) :: portSet rest port h

/-- Removal from the processes dict (del self.processes[port]). -/
def portErase (l : List (Nat × ProcHandle)) (port : Nat) : List (Nat × ProcHandle) :=
  l.filter (fun e => e.1 != port)

/-- IPerf3Server.get_available_port: draw up to 100 random candidate ports
(the stream of random.randint draws is passed in) and return the first that
binds; none models the RuntimeError raised after 100 failed attempts. -/
def get_available_port (bindOk : Nat → Bool) (draws : List Nat) : Option Nat :=
  (draws.take 100).find? bindOk

/-- The distinct exceptions that can abort IPerf3Server.start_server:
RuntimeError from port exhaustion, or a failure of the process spawn.
Both are converted to HTTPException(500) by the except branch, with
differing detail text. -/
inductive StartError where
  | noAvailablePort : StartError
  | spawnFailed : List Char → StartError
deriving DecidableEq

/-- Successful start_server payload (the port and duration fields of the
returned dict; the command hints are derived from the port). -/
structure StartResult where
  port : Nat
  duration : Nat
deriving DecidableEq

/-- IPerf3Server.start_server: allocate a port, spawn, and register the session
only after a successful spawn; on any failure the state is unchanged. -/
def start_server (bindOk : Nat → Bool) (draws : List Nat)
    (spawn : Nat → Except (List Char) ProcHandle) (duration : Nat)
    (st : IPerf3State) : Except StartError StartResult × IPerf3State :=
  match get_available_port bindOk draws with
  | none => (Except.error StartError.noAvailablePort, st)
  | some port =>
      match spawn port with
      | Except.error msg => (Except.error (StartError.spawnFailed msg), st)
      | Except.ok proc =>
          (Except.ok { port := port, duration := duration },
           { processes := portSet st.processes port proc })

/-- The observable process-control actions taken by stop_server, in order. -/
inductive StopStep where
  | terminateStep : StopStep
  | waitStep : Rat → StopStep
  | killStep : StopStep
deriving DecidableEq

/-- IPerf3Server.stop_server: if a session exists for the port, terminate, wait
up to 5 seconds, kill on timeout, delete the record and return true; otherwise
return false with no action and no state change.  The trace records the
process-control calls issued. -/
def stop_server (st : IPerf3State) (port : Nat) : Bool × IPerf3State × List StopStep :=
  match portLookup st.processes port with
  | some proc =>
      let steps :=
        if proc.exits_within_timeout then
          [StopStep.terminateStep, StopStep.waitStep 5]
        else
          [StopStep.terminateStep, StopStep.waitStep 5, StopStep.killStep]
      (true, { processes := portErase st.processes port }, steps)
  | none => (false, st, [])

theorem portLookup_portErase_self (l : List (Nat × ProcHandle)) (port : Nat) :
    portLookup (portErase l port) port = none := by
  induction l with
  | nil => simp [portErase, portLookup]
  | cons hd tl ih =>
      obtain ⟨p, h⟩ := hd
      by_cases hp : p = port
      · simpa [portErase, hp] using ih
      · simpa [portErase, portLookup, hp] using ih

/-! ### Query cache hit path (src/hyperglass/api/routes.py, query) -/

/-- A cached output value: either an opaque text blob or a structured document
(the JSON dict obtained from export_json on write). -/
inductive CacheVal where
  | text : List Char → CacheVal
  | structured : List (List Char × List Char) → CacheVal
deriving DecidableEq

/-- Modelled from the spec: the KeyValueStore collaborator used by the query
route, as seen from the hit path.  The store implementation is not under src;
each operation can fail with a transient store error (CacheUnavailable), and
routes.py calls both operations with no exception handler, so store failures
propagate to the caller. -/
structure StoreOps where
  get_map : List Char → List Char → Except (List Char) (Option CacheVal)
  expire : List Char → Nat → Except (List Char) Unit

/-- The response assembled by the query route for a cache hit. -/
structure QueryHitResponse where
  output : Option CacheVal
  cached : Bool
  runtime : Nat
  timestamp : Option CacheVal
deriving DecidableEq

/-- The cache-hit branch of query in routes.py (lines 89-102 and 147-166):
read the output field; on a hit, call cache.expire unguarded (a failure
propagates), read the timestamp field, re-read the output field, and build the
response with cached = true and runtime = 0.  Ok none models a cache miss,
which the (separate) miss branch handles. -/
def query_hit_path (cache : StoreOps) (cache_key : List Char) (cache_timeout : Nat) :
    Except (List Char) (Option QueryHitResponse) :=
  match cache.get_map cache_key "output".data with
  | Except.error e => Except.error e
  | Except.ok none => Except.ok none
  | Except.ok (some _) =>
      match cache.expire cache_key cache_timeout with
      | Except.error e => Except.error e
      | Except.ok _ =>
          match cache.get_map cache_key "timestamp".data with
          | Except.error e => Except.error e
          | Except.ok ts =>
              match cache.get_map cache_key "output".data with
              | Except.error e => Except.error e
              | Except.ok out2 =>
                  Except.ok (some { output := out2, cached := true, runtime := 0,
                                    timestamp := ts })

/-- A store on which reads succeed for every key but expire fails: the
key holds a cached output, and the TTL refresh raises. -/
def unreachableOnExpire : StoreOps :=
  { get_map := fun _ field =>
      if field = "output".data then Except.ok (some (CacheVal.text "cached-result".data))
      else Except.ok (some (CacheVal.text "ts0".data))
    expire := fun _ _ => Except.error "store unreachable".data }

/-- A store on which every operation succeeds. -/
def healthyStore : StoreOps :=
  { get_map := fun _ field =>
      if field = "output".data then Except.ok (some (CacheVal.text "cached-result".data))
      else Except.ok (some (CacheVal.text "ts0".data))
    expire := fun _ _ => Except.ok () }

/-! ### Cache round-trip store (spec section 6 KeyValueStore) -/

/-- Modelled from the spec: the KeyValueStore collaborator as a concrete
per-key field-map store with TTL expiry (get_field/set_field/expire); the
store implementation is not under src.  Value type is a parameter: the route
stores the (serialized) output under the output field and the logical
timestamp under the timestamp field of the same key. -/
structure KVStore (α : Type) where
  data : List (List Char × List (List Char × α))
  ttls : List (List Char × Nat)

/-- cache.set_map_item key field value. -/
def set_map_item {α : Type} (st : KVStore α) (key field : List Char) (v : α) : KVStore α :=
  let m := (assocLookup st.data key).getD []
  { st with data := assocSet st.data key (assocSet m field v) }

/-- cache.get_map key field. -/
def kv_get_map {α : Type} (st : KVStore α) (key field : List Char) : Option α :=
  (assocLookup st.data key).bind (fun m => assocLookup m field)

/-- cache.expire key ttl: reset the key's remaining TTL. -/
def kv_expire {α : Type} (st : KVStore α) (key : List Char) (ttl : Nat) : KVStore α :=
  { st with ttls := assocSet st.ttls key ttl }

/-- The miss-branch population sequence of query in routes.py (lines 138-140):
store the output, store the timestamp, then set the TTL. -/
def populate {α : Type} (st : KVStore α) (key : List Char) (output timestamp : α)
    (ttl : Nat) : KVStore α :=
  kv_expire (set_map_item (set_map_item st key "output".data output)
    key "timestamp".data timestamp) key ttl

/-- The pair of reads the query route performs against a key: the cached
output (line 89 / 147) and the logical timestamp (line 102). -/
def cacheLookup {α : Type} (st : KVStore α) (key : List Char) : Option α × Option α :=
  (kv_get_map st key "output".data, kv_get_map st key "timestamp".data)

/-! ### ALS configuration validator (src/hyperglass/util/als_config_validator.py
and src/hyperglass/models/config/als_features.py) -/

/-- SpeedTestConfig model fields used by the validator. -/
structure SpeedTestConfig where
  enabled : Bool
  file_sizes : List (List Char)
  max_file_size : List Char
  chunk_size : Int
deriving DecidableEq

/-- NetworkToolsConfig model fields used by the validator. -/
structure NetworkToolsConfig where
  enabled : Bool
  iperf3_port_range : Int × Int
  max_ping_count : Int
  max_traceroute_hops : Int
  ping_timeout : Int
  traceroute_timeout : Int
deriving DecidableEq

/-- BandwidthConfig model fields used by the validator. -/
structure BandwidthConfig where
  enabled : Bool
  update_interval : Int
  history_length : Int
  excluded_interfaces : List (List Char)
deriving DecidableEq

/-- ALSFeatures model: the three sub-configurations plus the global flag. -/
structure ALSFeatures where
  speedtest : SpeedTestConfig
  network_tools : NetworkToolsConfig
  bandwidth : BandwidthConfig
  enabled : Bool
deriving DecidableEq

/-- Decimal digit value of a character. -/
def digitVal (c : Char) : Option Nat :=
  if '0' ≤ c ∧ c ≤ '9' then some (c.toNat - '0'.toNat) else none

/-- Accumulate decimal digits; fails on the first non-digit. -/
def parseDigitsAux (acc : Nat) : List Char → Option Nat
  | [] => some acc
  | c :: cs =>
      match digitVal c with
      | some d => parseDigitsAux (acc * 10 + d) cs
      | none => none

/-- Parse a nonempty all-digit string. -/
def parseDigits : List Char → Option Nat
  | [] => none
  | c :: cs =>
      match digitVal c with
      | some d => parseDigitsAux d cs
      | none => none

/-- Model of Python int(str): an optional sign followed by decimal digits
(whitespace trimming and underscore grouping are not modelled); none models
the ValueError raised on anything else. -/
def parsePyInt (s : List Char) : Option Int :=
  match s with
  | '-' :: rest => (parseDigits rest).map (fun n => -(n : Int))
  | '+' :: rest => (parseDigits rest).map (fun n => (n : Int))
  | _ => (parseDigits s).map (fun n => (n : Int))

/-- Model of Python str.endswith on character lists. -/
def endsWithL (s suffix : List Char) : Bool :=
  s.drop (s.length - suffix.length) == suffix

/-- Model of Python s[:-n] for n ≥ 1 on a string of length ≥ n (the only way
the sources use it). -/
def dropRightL (s : List Char) (n : Nat) : List Char :=
  s.take (s.length - n)

/-- _validate_speedtest_config: per-size format and positivity errors in list
order, then the chunk-size range error.  The max_file_size check only logs a
warning and contributes no error. -/
def validate_speedtest_config (config : SpeedTestConfig) : List (List Char) :=
  if !config.enabled then []
  else
    let sizeErrors := config.file_sizes.foldr (fun size acc =>
      if !(endsWithL size "KB".data || endsWithL size "MB".data ||
           endsWithL size "GB".data) then
        ("Invalid file size format: ".data ++ size) :: acc
      else
        match parsePyInt (dropRightL size 2) with
        | none => ("Invalid file size number: ".data ++ size) :: acc
        | some n =>
            if n ≤ 0 then ("File size must be positive: ".data ++ size) :: acc
            else acc) []
    let chunkErrors :=
      if config.chunk_size < 1 ∨ 1024 < config.chunk_size then
        ["Chunk size must be between 1 and 1024 KB".data]
      else []
    sizeErrors ++ chunkErrors

/-- _validate_network_tools_config. -/
def validate_network_tools_config (config : NetworkToolsConfig) : List (List Char) :=
  if !config.enabled then []
  else
    (if config.iperf3_port_range.1 ≥ config.iperf3_port_range.2 then
        ["iPerf3 start port must be less than end port".data] else []) ++
    (if config.iperf3_port_range.1 < 1024 ∨ 65535 < config.iperf3_port_range.2 then
        ["iPerf3 ports must be between 1024 and 65535".data] else []) ++
    (if config.max_ping_count < 1 ∨ 100 < config.max_ping_count then
        ["Max ping count must be between 1 and 100".data] else []) ++
    (if config.max_traceroute_hops < 1 ∨ 255 < config.max_traceroute_hops then
        ["Max traceroute hops must be between 1 and 255".data] else []) ++
    (if config.ping_timeout < 5 ∨ 120 < config.ping_timeout then
        ["Ping timeout must be between 5 and 120 seconds".data] else []) ++
    (if config.traceroute_timeout < 10 ∨ 300 < config.traceroute_timeout then
        ["Traceroute timeout must be between 10 and 300 seconds".data] else [])

/-- _validate_bandwidth_config; the isinstance list check always passes on the
typed model and contributes no error. -/
def validate_bandwidth_config (config : BandwidthConfig) : List (List Char) :=
  if !config.enabled then []
  else
    (if config.update_interval < 1 ∨ 60 < config.update_interval then
        ["Update interval must be between 1 and 60 seconds".data] else []) ++
    (if config.history_length < 10 ∨ 3600 < config.history_length then
        ["History length must be between 10 and 3600 seconds".data] else [])

/-- validate_als_config.  The argument models config_data.get('als_features'):
none when the section is missing or empty (the early return), some (error e)
when ALSFeatures(**als_config) raises and the except branch formats the
message, some (ok als) when the Pydantic model parses. -/
def validate_als_config (als_section : Option (Except (List Char) ALSFeatures)) :
    Bool × List (List Char) :=
  match als_section with
  | none => (true, [])
  | some (Except.error e) =>
      (false, ["ALS configuration validation error: ".data ++ e])
  | some (Except.ok als) =>
      let errors := validate_speedtest_config als.speedtest ++
        validate_network_tools_config als.network_tools ++
        validate_bandwidth_config als.bandwidth
      if errors.isEmpty then (true, []) else (false, errors)

/-! ### Speed-test file endpoint (src/hyperglass/api/speedtest.py) -/

/-- Filename parsing in handle_speedtest_file (lines 102-118): strip ".bin",
then accept an "MB" suffix (size in megabytes) or a "GB" suffix (size times
1024); anything else — including "KB" — raises ValueError, modelled as none. -/
def parse_speedtest_filename (filename : List Char) : Option Int :=
  if endsWithL filename ".bin".data then
    let size_str := dropRightL filename 4
    if endsWithL size_str "MB".data then
      parsePyInt (dropRightL size_str 2)
    else if endsWithL size_str "GB".data then
      (parsePyInt (dropRightL size_str 2)).map (fun n => n * 1024)
    else none
  else none

/-- The response of the file endpoint: a 404, or an accepted stream with the
parsed size, the declared Content-Length, and the generated chunks (each byte
modelled as a Nat). -/
inductive FileResponse where
  | notFound : FileResponse
  | okStream : Nat → Nat → List (List Nat) → FileResponse
deriving DecidableEq

/-- generate_file_data: yield zero-filled chunks of at most 64KB until
total_bytes have been produced. -/
def generate_file_data (total : Nat) : List (List Nat) :=
  if _h : total = 0 then []
  else
    let remaining := min 65536 total
    List.replicate remaining 0 :: generate_file_data (total - remaining)
termination_by total
decreasing_by
  omega

/-- handle_speedtest_file: parse the filename; reject sizes outside 1..10240
megabytes with a 404; otherwise stream size_mb*1024*1024 zero bytes with a
matching Content-Length. -/
def handle_speedtest_file (filename : List Char) : FileResponse :=
  match parse_speedtest_filename filename with
  | none => FileResponse.notFound
  | some size_mb =>
      if size_mb ≤ 0 ∨ 10240 < size_mb then FileResponse.notFound
      else
        let total := size_mb.toNat * 1024 * 1024
        FileResponse.okStream size_mb.toNat total (generate_file_data total)

/-- Whether the endpoint accepted the filename. -/
def FileResponse.isAccepted : FileResponse → Bool
  | FileResponse.notFound => false
  | FileResponse.okStream _ _ _ => true

/-- The declared Content-Length, when accepted. -/
def FileResponse.declaredLength : FileResponse → Option Nat
  | FileResponse.notFound => none
  | FileResponse.okStream _ len _ => some len

/-- The streamed body: the concatenation of the generated chunks. -/
def FileResponse.body : FileResponse → List Nat
  | FileResponse.notFound => []
  | FileResponse.okStream _ _ chunks => chunks.flatten

/-- SpeedTestConfig.validate_file_sizes (als_features.py lines 49-60): true iff
every size ends in KB, MB or GB and its numeric part parses as an int; false
models the ValueError the Pydantic validator raises. -/
def validate_file_sizes (sizes : List (List Char)) : Bool :=
  sizes.all (fun size =>
    (endsWithL size "KB".data || endsWithL size "MB".data ||
     endsWithL size "GB".data) &&
    (parsePyInt (dropRightL size 2)).isSome)

/-! ### Helper lemmas -/

/-- The last cap elements of a list (what a deque(maxlen=cap) retains). -/
def lastN {α : Type} (cap : Nat) (l : List α) : List α :=
  l.drop (l.length - cap)

theorem appendCap_eq_lastN {α : Type} (cap : Nat) (xs : List α) (x : α) :
    appendCap cap xs x = lastN cap (xs ++ [x]) := rfl

theorem lastN_append_lastN {α : Type} (cap : Nat) (l : List α) (x : α) :
    lastN cap (lastN cap l ++ [x]) = lastN cap (l ++ [x]) := by
  unfold lastN
  rw [← List.drop_append_of_le_length (by omega : l.length - cap ≤ l.length)]
  rw [List.drop_drop]
  congr 1
  simp only [List.length_drop, List.length_append, List.length_cons, List.length_nil]
  omega

theorem foldl_appendCap {α : Type} (cap : Nat) (xs : List α) :
    ∀ acc : List α, xs.foldl (appendCap cap) (lastN cap acc) = lastN cap (acc ++ xs) := by
  induction xs with
  | nil => intro acc; simp
  | cons x xs ih =>
      intro acc
      rw [List.foldl_cons,
        show appendCap cap (lastN cap acc) x = lastN cap (lastN cap acc ++ [x]) from rfl,
        lastN_append_lastN, ih (acc ++ [x])]
      simp [List.append_assoc]

theorem foldl_appendCap_nil {α : Type} (cap : Nat) (xs : List α) :
    xs.foldl (appendCap cap) [] = lastN cap xs := by
  have h := foldl_appendCap cap xs []
  simpa [lastN] using h

theorem generate_file_data_flatten_length (total : Nat) :
    (generate_file_data total).flatten.length = total := by
  induction total using Nat.strong_induction_on with
  | _ total ih =>
    rw [generate_file_data]
    split
    · simp_all
    · rename_i h
      simp only [List.flatten_cons, List.length_append, List.length_replicate]
      rw [ih (total - min 65536 total) (by omega)]
      omega

theorem generate_file_data_all_zero (total : Nat) :
    ∀ b ∈ (generate_file_data total).flatten, b = 0 := by
  induction total using Nat.strong_induction_on with
  | _ total ih =>
    rw [generate_file_data]
    split
    · simp
    · rename_i h
      intro b hb
      simp only [List.flatten_cons, List.mem_append] at hb
      rcases hb with hb | hb
      · exact List.eq_of_mem_replicate hb
      · exact ih (total - min 65536 total) (by omega) b hb

theorem endsWithL_append (xs ys : List Char) : endsWithL (xs ++ ys) ys = true := by
  unfold endsWithL
  have h : (xs ++ ys).length - ys.length = xs.length := by
    simp [List.length_append]
  rw [h, List.drop_left]
  simp

theorem endsWithL_append_ne (xs ys zs : List Char) (hlen : ys.length = zs.length)
    (hne : ys ≠ zs) : endsWithL (xs ++ ys) zs = false := by
  unfold endsWithL
  have h : (xs ++ ys).length - zs.length = xs.length := by
    simp only [List.length_append]
    omega
  rw [h, List.drop_left]
  simp [hne]

theorem dropRightL_append (xs ys : List Char) : dropRightL (xs ++ ys) ys.length = xs := by
  unfold dropRightL
  have h : (xs ++ ys).length - ys.length = xs.length := by
    simp [List.length_append]
  rw [h, List.take_left]

theorem parse_filename_mb (s : List Char) :
    parse_speedtest_filename (s ++ "MB.bin".data) = parsePyInt s := by
  have hbin : endsWithL (s ++ "MB.bin".data) ".bin".data = true := by
    have h := endsWithL_append (s ++ "MB".data) ".bin".data
    rw [List.append_assoc] at h
    exact h
  have h4 : dropRightL (s ++ "MB.bin".data) 4 = s ++ "MB".data := by
    have h := dropRightL_append (s ++ "MB".data) ".bin".data
    rw [List.append_assoc] at h
    exact h
  have h2 : dropRightL (s ++ "MB".data) 2 = s := dropRightL_append s "MB".data
  unfold parse_speedtest_filename
  rw [hbin, if_pos rfl, h4]
  dsimp only
  rw [endsWithL_append s "MB".data, if_pos rfl, h2]

theorem parse_filename_gb (s : List Char) :
    parse_speedtest_filename (s ++ "GB.bin".data)
      = (parsePyInt s).map (fun n => n * 1024) := by
  have hbin : endsWithL (s ++ "GB.bin".data) ".bin".data = true := by
    have h := endsWithL_append (s ++ "GB".data) ".bin".data
    rw [List.append_assoc] at h
    exact h
  have h4 : dropRightL (s ++ "GB.bin".data) 4 = s ++ "GB".data := by
    have h := dropRightL_append (s ++ "GB".data) ".bin".data
    rw [List.append_assoc] at h
    exact h
  have h2 : dropRightL (s ++ "GB".data) 2 = s := dropRightL_append s "GB".data
  have hmb : endsWithL (s ++ "GB".data) "MB".data = false :=
    endsWithL_append_ne s "GB".data "MB".data rfl (by decide)
  unfold parse_speedtest_filename
  rw [hbin, if_pos rfl, h4]
  dsimp only
  rw [hmb, if_neg (by simp), endsWithL_append s "GB".data, if_pos rfl, h2]

theorem parse_filename_kb (s : List Char) :
    parse_speedtest_filename (s ++ "KB.bin".data) = none := by
  have hbin : endsWithL (s ++ "KB.bin".data) ".bin".data = true := by
    have h := endsWithL_append (s ++ "KB".data) ".bin".data
    rw [List.append_assoc] at h
    exact h
  have h4 : dropRightL (s ++ "KB.bin".data) 4 = s ++ "KB".data := by
    have h := dropRightL_append (s ++ "KB".data) ".bin".data
    rw [List.append_assoc] at h
    exact h
  have hmb : endsWithL (s ++ "KB".data) "MB".data = false :=
    endsWithL_append_ne s "KB".data "MB".data rfl (by decide)
  have hgb : endsWithL (s ++ "KB".data) "GB".data = false :=
    endsWithL_append_ne s "KB".data "GB".data rfl (by decide)
  unfold parse_speedtest_filename
  rw [hbin, if_pos rfl, h4]
  dsimp only
  rw [hmb, if_neg (by simp), hgb, if_neg (by simp)]

theorem assocLookup_assocSet_ts_output {α : Type} (l : List (List Char × α)) (v : α) :
    assocLookup (assocSet l "timestamp".data v) "output".data
      = assocLookup l "output".data :=
  assocLookup_assocSet_ne l "output".data "timestamp".data v (by decide)

/-! ### Claim theorems -/

/-- C1 (counterexample): the claim that a failing TTL refresh on a cache hit is
logged but not fatal is false: on a store whose reads succeed (the key holds a
cached output) but whose expire call fails, the query hit path returns the
store error instead of serving the cached entry — routes.py wraps cache.expire
in no handler. -/
theorem c1_counterexample :
    unreachableOnExpire.get_map "k".data "output".data
        = Except.ok (some (CacheVal.text "cached-result".data)) ∧
    query_hit_path unreachableOnExpire "k".data 120
        = Except.error "store unreachable".data := by
  constructor
  · rfl
  · rfl

/-- C1 (amended): on a cache hit the TTL refresh is invoked with no error
handling, so a refresh failure propagates and the request fails; the cached
entry (with cached = true and runtime 0) is served only when the refresh and
the subsequent reads succeed. -/
theorem c1_amended_refresh_failure (cache : StoreOps) (key : List Char) (ttl : Nat)
    (v : CacheVal) (hget : cache.get_map key "output".data = Except.ok (some v)) :
    (∀ e, cache.expire key ttl = Except.error e →
        query_hit_path cache key ttl = Except.error e) ∧
    (∀ ts, cache.expire key ttl = Except.ok () →
        cache.get_map key "timestamp".data = Except.ok ts →
        query_hit_path cache key ttl
          = Except.ok (some { output := some v, cached := true, runtime := 0,
                              timestamp := ts })) := by
  constructor
  · intro e he
    simp [query_hit_path, hget, he]
  · intro ts hok hts
    simp [query_hit_path, hget, hok, hts]

/-- C1 (amended) witness: on a healthy store, the hit path serves the cached
entry. -/
theorem c1_amended_refresh_failure_witness :
    healthyStore.get_map "k".data "output".data
        = Except.ok (some (CacheVal.text "cached-result".data)) ∧
    healthyStore.expire "k".data 120 = Except.ok () ∧
    healthyStore.get_map "k".data "timestamp".data
        = Except.ok (some (CacheVal.text "ts0".data)) ∧
    query_hit_path healthyStore "k".data 120
      = Except.ok (some { output := some (CacheVal.text "cached-result".data),
                          cached := true, runtime := 0,
                          timestamp := some (CacheVal.text "ts0".data) }) :=
  ⟨rfl, rfl, rfl,
    (c1_amended_refresh_failure healthyStore "k".data 120
        (CacheVal.text "cached-result".data) rfl).2
      (some (CacheVal.text "ts0".data)) rfl rfl⟩

/-- C2: if all 100 bind probes fail, port allocation returns no port,
start_server fails with noAvailablePort — a constructor distinct from
spawnFailed — and the session map is left unchanged (no session registered). -/
theorem c2_port_exhaustion (bindOk : Nat → Bool) (draws : List Nat)
    (spawn : Nat → Except (List Char) ProcHandle) (duration : Nat) (st : IPerf3State)
    (h : ∀ p ∈ draws.take 100, bindOk p = false) :
    get_available_port bindOk draws = none ∧
    (start_server bindOk draws spawn duration st).1
        = Except.error StartError.noAvailablePort ∧
    (start_server bindOk draws spawn duration st).2 = st ∧
    (∀ msg, StartError.noAvailablePort ≠ StartError.spawnFailed msg) := by
  have hnone : get_available_port bindOk draws = none := by
    unfold get_available_port
    rw [List.find?_eq_none]
    intro p hp
    simp [h p hp]
  refine ⟨hnone, ?_, ?_, ?_⟩
  · simp [start_server, hnone]
  · simp [start_server, hnone]
  · intro msg hcontra
    exact StartError.noConfusion hcontra

/-- C2 witness: a concrete exhausted allocator. -/
theorem c2_port_exhaustion_witness :
    (∀ p ∈ ([30000, 30001] : List Nat).take 100, (fun _ : Nat => false) p = false) ∧
    (start_server (fun _ => false) [30000, 30001] (fun _ => Except.error "exec".data)
        300 { processes := [] }).1 = Except.error StartError.noAvailablePort :=
  ⟨fun _ _ => rfl,
   (c2_port_exhaustion (fun _ => false) [30000, 30001]
      (fun _ => Except.error "exec".data) 300 { processes := [] }
      (fun _ _ => rfl)).2.1⟩

/-- C3: for a registered session, stop_server returns true, removes the
record, and issues terminate then a 5-second wait, escalating to kill exactly
when the process does not exit within the timeout; in particular it completes
with true even when the process never exits voluntarily. -/
theorem c3_stop_escalation (st : IPerf3State) (port : Nat) (proc : ProcHandle)
    (h : portLookup st.processes port = some proc) :
    (stop_server st port).1 = true ∧
    (stop_server st port).2.1.processes = portErase st.processes port ∧
    (stop_server st port).2.2
        = StopStep.terminateStep :: StopStep.waitStep 5 ::
          (if proc.exits_within_timeout then [] else [StopStep.killStep]) ∧
    (proc.exits_within_timeout = false →
        StopStep.killStep ∈ (stop_server st port).2.2) := by
  refine ⟨by simp [stop_server, h], by simp [stop_server, h], ?_, ?_⟩
  · cases hflag : proc.exits_within_timeout <;> simp [stop_server, h, hflag]
  · intro hf
    simp [stop_server, h, hf]

/-- A process that never exits within the stop timeout. -/
def procStuck : ProcHandle := { exits_within_timeout := false }

/-- A session map holding one stuck session on port 30000. -/
def stStuck : IPerf3State := { processes := [(30000, procStuck)] }

/-- C3 witness: stopping the stuck session succeeds and fires the kill. -/
theorem c3_stop_escalation_witness :
    portLookup stStuck.processes 30000 = some procStuck ∧
    (stop_server stStuck 30000).1 = true ∧
    (procStuck.exits_within_timeout = false →
        StopStep.killStep ∈ (stop_server stStuck 30000).2.2) :=
  ⟨rfl, (c3_stop_escalation stStuck 30000 procStuck rfl).1,
    (c3_stop_escalation stStuck 30000 procStuck rfl).2.2.2⟩

/-- C4: stopping twice returns true then false when a session existed (the
second call leaving the map as the first left it), and false both times with
the map unchanged when no session exists for the port. -/
theorem c4_stop_idempotence (st : IPerf3State) (port : Nat) :
    (∀ proc, portLookup st.processes port = some proc →
        (stop_server st port).1 = true ∧
        (stop_server (stop_server st port).2.1 port).1 = false ∧
        (stop_server (stop_server st port).2.1 port).2.1 = (stop_server st port).2.1) ∧
    (portLookup st.processes port = none →
        (stop_server st port).1 = false ∧
        (stop_server st port).2.1 = st ∧
        (stop_server (stop_server st port).2.1 port).1 = false ∧
        (stop_server (stop_server st port).2.1 port).2.1 = st) := by
  constructor
  · intro proc h
    have h2 : portLookup (portErase st.processes port) port = none :=
      portLookup_portErase_self st.processes port
    exact ⟨by simp [stop_server, h], by simp [stop_server, h, h2],
      by simp [stop_server, h, h2]⟩
  · intro h
    exact ⟨by simp [stop_server, h], by simp [stop_server, h],
      by simp [stop_server, h], by simp [stop_server, h]⟩

/-- A session map with no sessions. -/
def stEmpty : IPerf3State := { processes := [] }

/-- C4 witness: true-then-false on a held port, false-false on an empty map. -/
theorem c4_stop_idempotence_witness :
    (portLookup stStuck.processes 30000 = some procStuck ∧
      (stop_server stStuck 30000).1 = true ∧
      (stop_server (stop_server stStuck 30000).2.1 30000).1 = false) ∧
    (portLookup stEmpty.processes 30000 = none ∧
      (stop_server stEmpty 30000).1 = false ∧
      (stop_server (stop_server stEmpty 30000).2.1 30000).1 = false) :=
  ⟨⟨rfl, ((c4_stop_idempotence stStuck 30000).1 procStuck rfl).1,
      ((c4_stop_idempotence stStuck 30000).1 procStuck rfl).2.1⟩,
   ⟨rfl, ((c4_stop_idempotence stEmpty 30000).2 rfl).1,
      ((c4_stop_idempotence stEmpty 30000).2 rfl).2.2.1⟩⟩

/-- The sample stored by the first scenario tick (previous data for the second
tick). -/
def sampleT0 : SampleRec :=
  { timestamp := 0, bytes_sent := 1000, bytes_recv := 2000,
    packets_sent := 10, packets_recv := 20,
    send_rate := 0, recv_rate := 0, send_packets_rate := 0, recv_packets_rate := 0 }

/-- The sample produced by the second scenario tick. -/
def sampleT1 : SampleRec :=
  { timestamp := 1, bytes_sent := 1500, bytes_recv := 2600,
    packets_sent := 15, packets_recv := 26,
    send_rate := 500, recv_rate := 600, send_packets_rate := 5, recv_packets_rate := 6 }

/-- C5: rates are delta/elapsed when a previous sample exists and elapsed > 0,
and 0 otherwise (first sample, and non-positive elapsed); the two-tick eth0
scenario with counters 1000/2000 then 1500/2600 one second apart yields a
second sample with send_rate 500 and recv_rate 600. -/
theorem c5_rate_computation :
    (∀ (l : SampleRec) (now : Rat) (c : NetIOCounters),
        now - l.timestamp > 0 →
        (collectInterface (some l) now c).send_rate
            = ((c.bytes_sent - l.bytes_sent : Int) : Rat) / (now - l.timestamp) ∧
        (collectInterface (some l) now c).recv_rate
            = ((c.bytes_recv - l.bytes_recv : Int) : Rat) / (now - l.timestamp) ∧
        (collectInterface (some l) now c).send_packets_rate
            = ((c.packets_sent - l.packets_sent : Int) : Rat) / (now - l.timestamp) ∧
        (collectInterface (some l) now c).recv_packets_rate
            = ((c.packets_recv - l.packets_recv : Int) : Rat) / (now - l.timestamp)) ∧
    (∀ (now : Rat) (c : NetIOCounters),
        (collectInterface none now c).send_rate = 0 ∧
        (collectInterface none now c).recv_rate = 0 ∧
        (collectInterface none now c).send_packets_rate = 0 ∧
        (collectInterface none now c).recv_packets_rate = 0) ∧
    (∀ (l : SampleRec) (now : Rat) (c : NetIOCounters),
        now - l.timestamp ≤ 0 →
        (collectInterface (some l) now c).send_rate = 0 ∧
        (collectInterface (some l) now c).recv_rate = 0 ∧
        (collectInterface (some l) now c).send_packets_rate = 0 ∧
        (collectInterface (some l) now c).recv_packets_rate = 0) ∧
    (latestSample scenarioState eth0).map (fun smp => (smp.send_rate, smp.recv_rate))
        = some ((500 : Rat), (600 : Rat)) := by
  refine ⟨?_, ?_, ?_, ?_⟩
  · intro l now c h
    simp [collectInterface, h]
  · intro now c
    simp [collectInterface]
  · intro l now c h
    have h2 : ¬ (now - l.timestamp > 0) := not_lt.mpr h
    simp [collectInterface, h2]
  · have hexc : excludedInterface eth0 = false := by decide
    have h0 : collectInterface none 0 scenarioCounters1 = sampleT0 := rfl
    have h2 : collectInterface (some sampleT0) 1 scenarioCounters2 = sampleT1 := by
      simp only [collectInterface]
      rw [if_pos (by norm_num [sampleT0])]
      simp only [sampleT0, sampleT1, scenarioCounters2, SampleRec.mk.injEq]
      norm_num
    simp only [scenarioState, collect_stats, List.foldl_cons, List.foldl_nil,
      collectStep, initMonitor, hexc, Bool.false_eq_true, if_false, assocLookup,
      assocSet, appendCap, latestSample, h0, h2]
    simp [h2, List.getLast?_cons_cons, List.getLast?_singleton, sampleT1]

/-- C5 witness: the delta-over-elapsed rule applied at the scenario's second
tick. -/
theorem c5_rate_computation_witness :
    ((1 : Rat) - sampleT0.timestamp > 0) ∧
    (collectInterface (some sampleT0) 1 scenarioCounters2).send_rate
      = ((scenarioCounters2.bytes_sent - sampleT0.bytes_sent : Int) : Rat)
          / ((1 : Rat) - sampleT0.timestamp) :=
  ⟨by norm_num [sampleT0],
    (c5_rate_computation.1 sampleT0 1 scenarioCounters2 (by norm_num [sampleT0])).1⟩

/-- C6: the per-interface history is a bounded FIFO of capacity 60: appending
60 + k samples from empty retains exactly the last 60 (the oldest k dropped),
and a single bounded append never yields more than 60 elements. -/
theorem c6_bounded_fifo {α : Type} (samples : List α) (k : Nat)
    (h : samples.length = 60 + k) :
    samples.foldl (appendCap 60) [] = samples.drop k ∧
    (samples.foldl (appendCap 60) []).length = 60 ∧
    (∀ (xs : List α) (x : α), (appendCap 60 xs x).length ≤ 60) := by
  have hfold := foldl_appendCap_nil 60 samples
  refine ⟨?_, ?_, ?_⟩
  · rw [hfold]
    unfold lastN
    congr 1
    omega
  · rw [hfold]
    unfold lastN
    simp only [List.length_drop]
    omega
  · intro xs x
    simp only [appendCap, List.length_drop, List.length_append, List.length_cons,
      List.length_nil]
    omega

/-- C6 witness: 62 appends retain the last 60. -/
theorem c6_bounded_fifo_witness :
    (List.range 62).length = 60 + 2 ∧
    (List.range 62).foldl (appendCap 60) [] = (List.range 62).drop 2 :=
  ⟨by decide, (c6_bounded_fifo (List.range 62) 2 (by decide)).1⟩

/-- C7: populating the store with (key, output, timestamp, ttl) and immediately
looking the key up returns the output and the timestamp unchanged, for any
value type (structured outputs included). -/
theorem c7_cache_roundtrip {α : Type} (st : KVStore α) (key : List Char) (v ts : α)
    (ttl : Nat) :
    cacheLookup (populate st key v ts ttl) key = (some v, some ts) := by
  unfold cacheLookup populate kv_get_map kv_expire set_map_item
  dsimp only
  rw [assocLookup_assocSet_self]
  dsimp only [Option.bind]
  rw [assocLookup_assocSet_self, assocLookup_assocSet_ts_output,
    assocLookup_assocSet_self]
  dsimp only [Option.getD]
  rw [assocLookup_assocSet_self]

/-- C8: calling start_monitoring while the monitoring flag is set is a no-op:
the state (flag, task handle, histories) is returned unchanged and no new
monitor loop task is spawned. -/
theorem c8_start_idempotent (st : MonitorState) (h : st.monitoring = true) :
    start_monitoring st = (st, false) := by
  simp [start_monitoring, h]

/-- A monitor that is already running. -/
def runningMonitor : MonitorState :=
  { interface_stats := [], last_stats := [], monitoring := true, monitor_task := true }

/-- C8 witness. -/
theorem c8_start_idempotent_witness :
    runningMonitor.monitoring = true ∧
    start_monitoring runningMonitor = (runningMonitor, false) :=
  ⟨rfl, c8_start_idempotent runningMonitor rfl⟩

/-- C9: validate_als_config always returns a pair whose flag is true exactly
when the error list is empty, and returns (true, []) when the configuration
has no als_features section; the function is total (the except branch turns
any parse failure into an error entry rather than raising). -/
theorem c9_validator_invariant :
    (∀ s, (validate_als_config s).1 = true ↔ (validate_als_config s).2 = []) ∧
    validate_als_config none = (true, []) := by
  constructor
  · intro s
    match s with
    | none => simp [validate_als_config]
    | some (Except.error e) => simp [validate_als_config]
    | some (Except.ok als) =>
        simp only [validate_als_config]
        by_cases h : (validate_speedtest_config als.speedtest ++
            validate_network_tools_config als.network_tools ++
            validate_bandwidth_config als.bandwidth).isEmpty
        · rw [if_pos h]
          simp
        · rw [if_neg h]
          dsimp only
          constructor
          · intro hfalse
            exact absurd hfalse (by decide)
          · intro hnil
            exact absurd (List.isEmpty_iff.mpr hnil) h
  · rfl

/-- C10: the file endpoint accepts a numeral-with-MB (or GB) .bin filename
exactly when the resulting megabyte size lies in 1..10240, streaming exactly
size*1024*1024 zero bytes with a matching Content-Length; a KB filename is
always rejected with 404 even though the configuration model's file-size
validator accepts it. -/
theorem c10_speedtest_file (s : List Char) (n : Int) (hp : parsePyInt s = some n) :
    (0 < n ∧ n ≤ 10240 →
      (handle_speedtest_file (s ++ "MB.bin".data)).isAccepted = true ∧
      (handle_speedtest_file (s ++ "MB.bin".data)).body.length
          = n.toNat * 1024 * 1024 ∧
      (∀ b ∈ (handle_speedtest_file (s ++ "MB.bin".data)).body, b = 0) ∧
      (handle_speedtest_file (s ++ "MB.bin".data)).declaredLength
          = some ((handle_speedtest_file (s ++ "MB.bin".data)).body.length)) ∧
    (¬(0 < n ∧ n ≤ 10240) →
      handle_speedtest_file (s ++ "MB.bin".data) = FileResponse.notFound) ∧
    (0 < n ∧ n * 1024 ≤ 10240 →
      (handle_speedtest_file (s ++ "GB.bin".data)).isAccepted = true ∧
      (handle_speedtest_file (s ++ "GB.bin".data)).body.length
          = (n * 1024).toNat * 1024 * 1024 ∧
      (handle_speedtest_file (s ++ "GB.bin".data)).declaredLength
          = some ((handle_speedtest_file (s ++ "GB.bin".data)).body.length)) ∧
    (¬(0 < n ∧ n * 1024 ≤ 10240) →
      handle_speedtest_file (s ++ "GB.bin".data) = FileResponse.notFound) ∧
    handle_speedtest_file (s ++ "KB.bin".data) = FileResponse.notFound ∧
    validate_file_sizes [s ++ "KB".data] = true := by
  have hmb : handle_speedtest_file (s ++ "MB.bin".data)
      = if n ≤ 0 ∨ 10240 < n then FileResponse.notFound
        else FileResponse.okStream n.toNat (n.toNat * 1024 * 1024)
          (generate_file_data (n.toNat * 1024 * 1024)) := by
    unfold handle_speedtest_file
    rw [parse_filename_mb, hp]
  have hgb : handle_speedtest_file (s ++ "GB.bin".data)
      = if n * 1024 ≤ 0 ∨ 10240 < n * 1024 then FileResponse.notFound
        else FileResponse.okStream (n * 1024).toNat ((n * 1024).toNat * 1024 * 1024)
          (generate_file_data ((n * 1024).toNat * 1024 * 1024)) := by
    unfold handle_speedtest_file
    rw [parse_filename_gb, hp]
    rfl
  refine ⟨?_, ?_, ?_, ?_, ?_, ?_⟩
  · intro hb
    rw [hmb, if_neg (by omega)]
    refine ⟨rfl, ?_, ?_, ?_⟩
    · exact generate_file_data_flatten_length (n.toNat * 1024 * 1024)
    · exact generate_file_data_all_zero (n.toNat * 1024 * 1024)
    · rw [show (FileResponse.okStream n.toNat (n.toNat * 1024 * 1024)
          (generate_file_data (n.toNat * 1024 * 1024))).body
          = (generate_file_data (n.toNat * 1024 * 1024)).flatten from rfl,
        generate_file_data_flatten_length]
      rfl
  · intro hb
    rw [hmb, if_pos (by omega)]
  · intro hb
    rw [hgb, if_neg (by omega)]
    refine ⟨rfl, ?_, ?_⟩
    · exact generate_file_data_flatten_length ((n * 1024).toNat * 1024 * 1024)
    · rw [show (FileResponse.okStream (n * 1024).toNat ((n * 1024).toNat * 1024 * 1024)
          (generate_file_data ((n * 1024).toNat * 1024 * 1024))).body
          = (generate_file_data ((n * 1024).toNat * 1024 * 1024)).flatten from rfl,
        generate_file_data_flatten_length]
      rfl
  · intro hb
    rw [hgb, if_pos (by omega)]
  · unfold handle_speedtest_file
    rw [parse_filename_kb]
  · have h2 : dropRightL (s ++ "KB".data) 2 = s := dropRightL_append s "KB".data
    simp [validate_file_sizes, endsWithL_append, h2, hp]

/-- C10 witness: the filename 5MB.bin is accepted. -/
theorem c10_speedtest_file_witness :
    parsePyInt "5".data = some 5 ∧
    ((0 : Int) < 5 ∧ (5 : Int) ≤ 10240) ∧
    (handle_speedtest_file ("5".data ++ "MB.bin".data)).isAccepted = true :=
  ⟨by decide, by decide,
    ((c10_speedtest_file "5".data 5 (by decide)).1 (by decide)).1⟩

end Hyperglass
